import Mathlib

/-!
Verification of the spx-tracker band/backtest calculation.

The pipelines of `fetch_data.get_spx_data` and `app.get_spx_data` are
embedded over exact rationals, with pandas/IEEE-754 NaN cells modelled
explicitly: arithmetic propagates NaN and any comparison against NaN is
false, exactly as pandas boolean masks behave.
-/

namespace SpxTracker

/-- A pandas scalar cell: NaN or an exact rational. Arithmetic propagates
NaN; comparisons involving NaN yield `false`. -/
inductive RVal where
  | nan : RVal
  | num : ℚ → RVal
deriving DecidableEq, Repr

namespace RVal

def add : RVal → RVal → RVal
  | num a, num b => num (a + b)
  | _, _ => nan

def sub : RVal → RVal → RVal
  | num a, num b => num (a - b)
  | _, _ => nan

def mul : RVal → RVal → RVal
  | num a, num b => num (a * b)
  | _, _ => nan

/-- Division of a series cell by a literal constant. -/
def divC : RVal → ℚ → RVal
  | num a, c => num (a / c)
  | nan, _ => nan

/-- `a <= b` as pandas evaluates it: false whenever either side is NaN. -/
def le : RVal → RVal → Bool
  | num a, num b => decide (a ≤ b)
  | _, _ => false

/-- `a >= b` as pandas evaluates it: false whenever either side is NaN. -/
def ge (a b : RVal) : Bool := le b a

end RVal

/-- One aligned input row: trading date (as a day number), the SPX close,
and the VIX close after `reindex(..., method='ffill')` (NaN when no VIX
value at or before that date exists). -/
structure InRow where
  date : ℕ
  spx : ℚ
  vix : RVal
deriving DecidableEq, Repr

/-- One row of the computed dataframe: every derived column of
`get_spx_data`. `sh*` are the shifted ("yesterday's prediction") bounds. -/
structure Obs where
  date : ℕ
  spx : ℚ
  vix : RVal
  dailySigma : RVal
  pred1U : RVal
  pred1L : RVal
  pred2U : RVal
  pred2L : RVal
  sh1U : RVal
  sh1L : RVal
  sh2U : RVal
  sh2L : RVal
  within1 : Bool
  within2 : Bool
  outside1 : Bool
  outside2 : Bool
deriving DecidableEq, Repr

/-! ### app.py pipeline (lines 28-52) -/

/-- app.py line 34: `df['Daily_Sigma'] = df['VIX'] / 15.87`. -/
def appDailySigma (v : RVal) : RVal := v.divC 15.87

/-- app.py lines 35-38: the four same-day predicted bounds
(upper 1σ, lower 1σ, upper 2σ, lower 2σ) for one row. -/
def appPredBands (r : InRow) : RVal × RVal × RVal × RVal :=
  let sigma := appDailySigma r.vix
  (RVal.mul (.num r.spx) (RVal.add (.num 1) (sigma.divC 100)),
   RVal.mul (.num r.spx) (RVal.sub (.num 1) (sigma.divC 100)),
   RVal.mul (.num r.spx) (RVal.add (.num 1) ((RVal.mul (.num 2) sigma).divC 100)),
   RVal.mul (.num r.spx) (RVal.sub (.num 1) ((RVal.mul (.num 2) sigma).divC 100)))

/-- app.py lines 34-50 for a single row: `prev` is the previous row
(`none` for row 0, whose shifted bounds are NaN from `.shift(1)`). -/
def appObs (prev : Option InRow) (cur : InRow) : Obs :=
  let sigma := appDailySigma cur.vix
  let pb := appPredBands cur
  let sb := match prev with
    | none => (RVal.nan, RVal.nan, RVal.nan, RVal.nan)
    | some p => appPredBands p
  let w1 := RVal.ge (.num cur.spx) sb.2.1 && RVal.le (.num cur.spx) sb.1
  let w2 := RVal.ge (.num cur.spx) sb.2.2.2 && RVal.le (.num cur.spx) sb.2.2.1
  { date := cur.date, spx := cur.spx, vix := cur.vix,
    dailySigma := sigma,
    pred1U := pb.1, pred1L := pb.2.1, pred2U := pb.2.2.1, pred2L := pb.2.2.2,
    sh1U := sb.1, sh1L := sb.2.1, sh2U := sb.2.2.1, sh2L := sb.2.2.2,
    within1 := w1, within2 := w2,
    outside1 := !w1 && w2, outside2 := !w2 }

/-- The full dataframe of app.py `get_spx_data` (row 0 kept, as in the
`return df.copy()` on line 52). -/
def appBandRows : List InRow → List Obs
  | [] => []
  | x :: rest => appObs none x :: List.zipWith (fun p c => appObs (some p) c) (x :: rest) rest

/-- `reindex(spx_dates, method='ffill')` at one date: the VIX value at the
largest VIX date ≤ `d` (dates ascending), NaN when none exists. -/
def ffillAt (vix : List (ℕ × ℚ)) (d : ℕ) : RVal :=
  vix.foldl (fun acc p => if p.1 ≤ d then RVal.num p.2 else acc) RVal.nan

/-- Data preparation shared by both files: SPX trading days as the base,
VIX forward-filled onto them. -/
def alignRows (spx vix : List (ℕ × ℚ)) : List InRow :=
  spx.map (fun p => { date := p.1, spx := p.2, vix := ffillAt vix p.1 })

/-- app.py `get_spx_data`: `None` when either downloaded series is empty,
otherwise the full dataframe including row 0. -/
def appGetSpxData (spx vix : List (ℕ × ℚ)) : Option (List Obs) :=
  if spx.isEmpty || vix.isEmpty then none
  else some (appBandRows (alignRows spx vix))

/-! ### fetch_data.py pipeline (lines 44-112) -/

/-- fetch_data.py line 70: `df['Daily_Sigma'] = df['VIX'] / 15.87`. -/
def fetchDailySigma (v : RVal) : RVal := v.divC 15.87

/-- fetch_data.py lines 76-82: the four same-day predicted bounds
(upper 1σ, lower 1σ, upper 2σ, lower 2σ) for one row. -/
def fetchPredBands (r : InRow) : RVal × RVal × RVal × RVal :=
  let sigma := fetchDailySigma r.vix
  (RVal.mul (.num r.spx) (RVal.add (.num 1) (sigma.divC 100)),
   RVal.mul (.num r.spx) (RVal.sub (.num 1) (sigma.divC 100)),
   RVal.mul (.num r.spx) (RVal.add (.num 1) ((RVal.mul (.num 2) sigma).divC 100)),
   RVal.mul (.num r.spx) (RVal.sub (.num 1) ((RVal.mul (.num 2) sigma).divC 100)))

/-- fetch_data.py lines 70-107 for a single row: `prev` is the previous
row (`none` for row 0, whose shifted bounds are NaN from `.shift(1)`). -/
def fetchObs (prev : Option InRow) (cur : InRow) : Obs :=
  let sigma := fetchDailySigma cur.vix
  let pb := fetchPredBands cur
  let sb := match prev with
    | none => (RVal.nan, RVal.nan, RVal.nan, RVal.nan)
    | some p => fetchPredBands p
  let w1 := RVal.ge (.num cur.spx) sb.2.1 && RVal.le (.num cur.spx) sb.1
  let w2 := RVal.ge (.num cur.spx) sb.2.2.2 && RVal.le (.num cur.spx) sb.2.2.1
  { date := cur.date, spx := cur.spx, vix := cur.vix,
    dailySigma := sigma,
    pred1U := pb.1, pred1L := pb.2.1, pred2U := pb.2.2.1, pred2L := pb.2.2.2,
    sh1U := sb.1, sh1L := sb.2.1, sh2U := sb.2.2.1, sh2L := sb.2.2.2,
    within1 := w1, within2 := w2,
    outside1 := !w1 && w2, outside2 := !w2 }

/-- The full dataframe of fetch_data.py before `iloc[1:]`. -/
def fetchBandRows : List InRow → List Obs
  | [] => []
  | x :: rest => fetchObs none x :: List.zipWith (fun p c => fetchObs (some p) c) (x :: rest) rest

/-- fetch_data.py `get_spx_data`: `None` when either downloaded series is
empty; otherwise the computed dataframe with the first row dropped
(`return df.iloc[1:].copy()`, line 112). -/
def fetchGetSpxData (spx vix : List (ℕ × ℚ)) : Option (List Obs) :=
  if spx.isEmpty || vix.isEmpty then none
  else some ((fetchBandRows (alignRows spx vix)).drop 1)

/-! ### Route-level computations of app.py `index` -/

/-- app.py lines 58-66: parse the `days` query parameter (`none` models an
absent or non-numeric value, which `int(...)` turns into the default 40),
then clamp to [10, 500]. -/
def daysToDisplay (raw : Option ℤ) : ℤ :=
  let d0 := match raw with
    | none => 40
    | some v => v
  let d1 := if d0 < 10 then 10 else d0
  if 500 < d1 then 500 else d1

/-- app.py lines 239-242 and 410-412: counts of each classification over
the charted window and the three percentages, each guarded by
`if total_days > 0 else 0`. Returned as (p1, p4, p3) =
(within 1σ %, outside 1σ %, outside 2σ %). -/
def perfStats (w : List Obs) : ℚ × ℚ × ℚ :=
  let total := w.length
  let w1 := (w.filter (fun o => o.within1)).length
  let o1 := (w.filter (fun o => o.outside1)).length
  let o2 := (w.filter (fun o => o.outside2)).length
  (if 0 < total then ((w1 : ℚ) / total) * 100 else 0,
   if 0 < total then ((o1 : ℚ) / total) * 100 else 0,
   if 0 < total then ((o2 : ℚ) / total) * 100 else 0)

/-! ### fetch_data.py `get_display_data` result string (lines 151-159) -/

/-- fetch_data.py lines 151-159: the formatted result label for the
latest row, with the `N/A` fallback branch. -/
def latestResultStr (o : Obs) : String :=
  if o.outside2 then "<strong style=\"color:black;\">Outside 2σ (Rare)</strong>"
  else if o.outside1 then "<strong style=\"color:red;\">Outside 1σ</strong>"
  else if o.within1 then "<strong style=\"color:green;\">Within 1σ</strong>"
  else "N/A"

/-! ### Helper predicates -/

/-- Is this cell a real number (not NaN)? -/
def RVal.isNum : RVal → Bool
  | RVal.nan => false
  | RVal.num _ => true

/-- A row's shifted ("test") bounds are real numbers and nested: the 2σ
band contains the 1σ band. -/
def validShifted (o : Obs) : Prop :=
  o.sh1L.isNum = true ∧ o.sh1U.isNum = true ∧ o.sh2L.isNum = true ∧ o.sh2U.isNum = true ∧
  RVal.le o.sh2L o.sh1L = true ∧ RVal.le o.sh1U o.sh2U = true

/-- Exactly one of three booleans is set. -/
def exactlyOne (a b c : Bool) : Prop :=
  (a = true ∧ b = false ∧ c = false) ∨
  (a = false ∧ b = true ∧ c = false) ∨
  (a = false ∧ b = false ∧ c = true)

/-- The classification flags of a row are the pandas comparisons of its
own close against its own shifted bounds — true of every row either
pipeline produces. -/
def flagsConsistent (o : Obs) : Prop :=
  o.within1 = (RVal.ge (.num o.spx) o.sh1L && RVal.le (.num o.spx) o.sh1U) ∧
  o.within2 = (RVal.ge (.num o.spx) o.sh2L && RVal.le (.num o.spx) o.sh2U) ∧
  o.outside1 = (!o.within1 && o.within2) ∧
  o.outside2 = (!o.within2)

/-- Default row used with `List.getD`. -/
def defaultInRow : InRow := { date := 0, spx := 0, vix := RVal.nan }

/-- Default observation used with `List.getD`. -/
def defaultObs : Obs := fetchObs none defaultInRow

/-- A small concrete SPX history (the spec's worked example: closes 100
then 99.5). -/
def exInputSpx : List (ℕ × ℚ) := [(0, 100), (1, 199/2)]

/-- Concrete VIX history with VIX = 15.87 on both days. -/
def exInputVix : List (ℕ × ℚ) := [(0, 15.87), (1, 15.87)]

/-- The aligned rows of the concrete example. -/
def exAligned : List InRow := alignRows exInputSpx exInputVix

/-- The fetch_data pipeline's output on the concrete example. -/
def exFetchOut : List Obs := (fetchGetSpxData exInputSpx exInputVix).getD []

/-- The single row of `exFetchOut`. -/
def exObs : Obs := exFetchOut.getD 0 defaultObs

/-! ### Helper lemmas -/

lemma flagsConsistent_fetchObs (p : Option InRow) (c : InRow) :
    flagsConsistent (fetchObs p c) := by
  cases p <;> exact ⟨rfl, rfl, rfl, rfl⟩

lemma mem_zipWith_exists {α β γ : Type} (f : α → β → γ) :
    ∀ (as : List α) (bs : List β) {c : γ}, c ∈ List.zipWith f as bs → ∃ a b, c = f a b := by
  intro as
  induction as with
  | nil => intro bs c h; simp at h
  | cons a as ih =>
    intro bs c h
    cases bs with
    | nil => simp at h
    | cons b bs =>
      rw [List.zipWith_cons_cons] at h
      rcases List.mem_cons.mp h with h | h
      · exact ⟨a, b, h⟩
      · exact ih bs h

lemma mem_fetchBandRows {xs : List InRow} {o : Obs} (h : o ∈ fetchBandRows xs) :
    ∃ p c, o = fetchObs p c := by
  cases xs with
  | nil => simp [fetchBandRows] at h
  | cons x rest =>
    simp only [fetchBandRows] at h
    rcases List.mem_cons.mp h with h | h
    · exact ⟨none, x, h⟩
    · rcases mem_zipWith_exists _ _ _ h with ⟨a, b, hab⟩
      exact ⟨some a, b, hab⟩

lemma appObs_eq_fetchObs (p : Option InRow) (c : InRow) : appObs p c = fetchObs p c := by
  cases p <;> rfl

lemma appBandRows_eq_fetchBandRows (xs : List InRow) : appBandRows xs = fetchBandRows xs := by
  cases xs with
  | nil => rfl
  | cons x rest => simp only [appBandRows, fetchBandRows, appObs_eq_fetchObs]

/-- Any row either pipeline emits has flags computed from its own close
and shifted bounds. -/
lemma flagsConsistent_of_mem_fetch {xs : List InRow} {o : Obs}
    (h : o ∈ fetchBandRows xs) : flagsConsistent o := by
  rcases mem_fetchBandRows h with ⟨p, c, rfl⟩
  exact flagsConsistent_fetchObs p c

/-- The classification partition: consistent flags plus real nested
shifted bounds force exactly one classification. -/
lemma exactlyOne_of_flags {o : Obs} (hf : flagsConsistent o) (hv : validShifted o) :
    exactlyOne o.within1 o.outside1 o.outside2 := by
  obtain ⟨hw1, hw2, ho1, ho2⟩ := hf
  obtain ⟨n1L, n1U, n2L, n2U, hnl, hnu⟩ := hv
  cases e1L : o.sh1L with
  | nan => rw [e1L] at n1L; simp [RVal.isNum] at n1L
  | num l1 =>
  cases e1U : o.sh1U with
  | nan => rw [e1U] at n1U; simp [RVal.isNum] at n1U
  | num u1 =>
  cases e2L : o.sh2L with
  | nan => rw [e2L] at n2L; simp [RVal.isNum] at n2L
  | num l2 =>
  cases e2U : o.sh2U with
  | nan => rw [e2U] at n2U; simp [RVal.isNum] at n2U
  | num u2 =>
  rw [e2L, e1L] at hnl
  rw [e1U, e2U] at hnu
  simp only [RVal.le, decide_eq_true_eq] at hnl hnu
  rw [e1L, e1U] at hw1
  rw [e2L, e2U] at hw2
  simp only [RVal.ge, RVal.le] at hw1 hw2
  set c := o.spx with hc
  by_cases hA : l1 ≤ c ∧ c ≤ u1
  · have h1 : o.within1 = true := by
      rw [hw1]; simp [hA.1, hA.2]
    have h2 : o.within2 = true := by
      rw [hw2]; simp [le_trans hnl hA.1, le_trans hA.2 hnu]
    exact Or.inl ⟨h1, by simp [ho1, h1], by simp [ho2, h2]⟩
  · have h1 : o.within1 = false := by
      rw [hw1]
      rcases not_and_or.mp hA with h | h <;> simp [h]
    by_cases hB : l2 ≤ c ∧ c ≤ u2
    · have h2 : o.within2 = true := by
        rw [hw2]; simp [hB.1, hB.2]
      exact Or.inr (Or.inl ⟨h1, by simp [ho1, h1, h2], by simp [ho2, h2]⟩)
    · have h2 : o.within2 = false := by
        rw [hw2]
        rcases not_and_or.mp hB with h | h <;> simp [h]
      exact Or.inr (Or.inr ⟨h1, by simp [ho1, h2], by simp [ho2, h2]⟩)

/-- Three-way count partition: when every element carries exactly one
flag, the three filtered counts sum to the window length. -/
lemma filter_three_partition :
    ∀ (w : List Obs), (∀ o ∈ w, exactlyOne o.within1 o.outside1 o.outside2) →
      (w.filter (fun o => o.within1)).length + (w.filter (fun o => o.outside1)).length +
        (w.filter (fun o => o.outside2)).length = w.length := by
  intro w
  induction w with
  | nil => intro _; rfl
  | cons o w ih =>
    intro h
    have ho := h o (List.mem_cons_self o w)
    have hw := ih (fun x hx => h x (List.mem_cons_of_mem o hx))
    rcases ho with ⟨h1, h2, h3⟩ | ⟨h1, h2, h3⟩ | ⟨h1, h2, h3⟩ <;>
      simp [List.filter_cons, h1, h2, h3] <;> omega

/-! ### Claims -/

/-- C2: every row's daily sigma is vol/15.87 and its same-day predicted
bounds are close·(1 ± sigma/100) and close·(1 ± 2·sigma/100); at
close = 100, vol = 15.87 this gives sigma 1, 1σ bounds 101/99 and 2σ
bounds 102/98. -/
theorem c2_band_formulas :
    (∀ (prev : Option InRow) (d : ℕ) (c v : ℚ),
      (fetchObs prev ⟨d, c, .num v⟩).dailySigma = .num (v / 15.87) ∧
      (fetchObs prev ⟨d, c, .num v⟩).pred1U = .num (c * (1 + (v / 15.87) / 100)) ∧
      (fetchObs prev ⟨d, c, .num v⟩).pred1L = .num (c * (1 - (v / 15.87) / 100)) ∧
      (fetchObs prev ⟨d, c, .num v⟩).pred2U = .num (c * (1 + 2 * (v / 15.87) / 100)) ∧
      (fetchObs prev ⟨d, c, .num v⟩).pred2L = .num (c * (1 - 2 * (v / 15.87) / 100))) ∧
    ((fetchObs none ⟨0, 100, .num 15.87⟩).dailySigma = .num 1 ∧
     (fetchObs none ⟨0, 100, .num 15.87⟩).pred1U = .num 101 ∧
     (fetchObs none ⟨0, 100, .num 15.87⟩).pred1L = .num 99 ∧
     (fetchObs none ⟨0, 100, .num 15.87⟩).pred2U = .num 102 ∧
     (fetchObs none ⟨0, 100, .num 15.87⟩).pred2L = .num 98) := by
  have hg : ∀ (prev : Option InRow) (d : ℕ) (c v : ℚ),
      (fetchObs prev ⟨d, c, .num v⟩).dailySigma = .num (v / 15.87) ∧
      (fetchObs prev ⟨d, c, .num v⟩).pred1U = .num (c * (1 + (v / 15.87) / 100)) ∧
      (fetchObs prev ⟨d, c, .num v⟩).pred1L = .num (c * (1 - (v / 15.87) / 100)) ∧
      (fetchObs prev ⟨d, c, .num v⟩).pred2U = .num (c * (1 + 2 * (v / 15.87) / 100)) ∧
      (fetchObs prev ⟨d, c, .num v⟩).pred2L = .num (c * (1 - 2 * (v / 15.87) / 100)) :=
    fun prev d c v => ⟨rfl, rfl, rfl, rfl, rfl⟩
  refine ⟨hg, ?_, ?_, ?_, ?_, ?_⟩
  · rw [(hg none 0 100 15.87).1]; norm_num
  · rw [(hg none 0 100 15.87).2.1]; norm_num
  · rw [(hg none 0 100 15.87).2.2.1]; norm_num
  · rw [(hg none 0 100 15.87).2.2.2.1]; norm_num
  · rw [(hg none 0 100 15.87).2.2.2.2]; norm_num

/-- C4: with non-negative close and volatility, daily sigma is ≥ 0, the
upper bounds are ≥ the close, the lower bounds are ≤ the close, and the
2σ interval contains the 1σ interval. -/
theorem c4_band_ordering (prev : Option InRow) (d : ℕ) (c v : ℚ)
    (hc : 0 ≤ c) (hv : 0 ≤ v) :
    ∃ s u1 l1 u2 l2 : ℚ,
      (fetchObs prev ⟨d, c, .num v⟩).dailySigma = .num s ∧
      (fetchObs prev ⟨d, c, .num v⟩).pred1U = .num u1 ∧
      (fetchObs prev ⟨d, c, .num v⟩).pred1L = .num l1 ∧
      (fetchObs prev ⟨d, c, .num v⟩).pred2U = .num u2 ∧
      (fetchObs prev ⟨d, c, .num v⟩).pred2L = .num l2 ∧
      0 ≤ s ∧ c ≤ u1 ∧ l1 ≤ c ∧ c ≤ u2 ∧ l2 ≤ c ∧ l2 ≤ l1 ∧ u1 ≤ u2 := by
  have hs : 0 ≤ v / 15.87 := div_nonneg hv (by norm_num)
  have hcs : 0 ≤ c * (v / 15.87) := mul_nonneg hc hs
  refine ⟨v / 15.87, c * (1 + (v / 15.87) / 100), c * (1 - (v / 15.87) / 100),
    c * (1 + 2 * (v / 15.87) / 100), c * (1 - 2 * (v / 15.87) / 100),
    rfl, rfl, rfl, rfl, rfl, hs, ?_, ?_, ?_, ?_, ?_, ?_⟩ <;> nlinarith [hcs]

/-- C4 witness at close = 100, vol = 15.87. -/
theorem c4_band_ordering_witness :
    ∃ s u1 l1 u2 l2 : ℚ,
      (fetchObs none ⟨0, 100, .num 15.87⟩).dailySigma = .num s ∧
      (fetchObs none ⟨0, 100, .num 15.87⟩).pred1U = .num u1 ∧
      (fetchObs none ⟨0, 100, .num 15.87⟩).pred1L = .num l1 ∧
      (fetchObs none ⟨0, 100, .num 15.87⟩).pred2U = .num u2 ∧
      (fetchObs none ⟨0, 100, .num 15.87⟩).pred2L = .num l2 ∧
      0 ≤ s ∧ 100 ≤ u1 ∧ l1 ≤ 100 ∧ 100 ≤ u2 ∧ l2 ≤ 100 ∧ l2 ≤ l1 ∧ u1 ≤ u2 :=
  c4_band_ordering none 0 100 15.87 (by norm_num) (by norm_num)

/-- C6: the effective window size is the requested integer clamped to
[10, 500], with 40 for an absent or non-numeric parameter; 5 yields 10,
10000 yields 500, and a non-numeric value yields 40. -/
theorem c6_days_clamp :
    (∀ r : Option ℤ, daysToDisplay r = min 500 (max 10 (r.getD 40))) ∧
    daysToDisplay (some 5) = 10 ∧ daysToDisplay (some 10000) = 500 ∧
    daysToDisplay none = 40 := by
  refine ⟨?_, by decide, by decide, by decide⟩
  intro r
  cases r with
  | none => decide
  | some v =>
    simp only [daysToDisplay, Option.getD]
    split <;> split <;> omega

/-- C7: the aggregator's three percentages are count/N·100 over the
window (with rational division, 0 when N = 0), and an empty window
yields (0, 0, 0) — the guard prevents any division by zero. -/
theorem c7_percentages (w : List Obs) :
    perfStats w = (((w.filter (fun o => o.within1)).length : ℚ) / w.length * 100,
                   ((w.filter (fun o => o.outside1)).length : ℚ) / w.length * 100,
                   ((w.filter (fun o => o.outside2)).length : ℚ) / w.length * 100) ∧
    (w.length = 0 → perfStats w = (0, 0, 0)) := by
  rcases Nat.eq_zero_or_pos w.length with h0 | hpos
  · have he : w = [] := List.length_eq_zero.mp h0
    subst he
    exact ⟨by simp [perfStats], fun _ => by simp [perfStats]⟩
  · constructor
    · simp only [perfStats, if_pos hpos]
    · intro h; omega

/-- C7 witness: the empty window yields (0, 0, 0) without any division
by zero. -/
theorem c7_percentages_witness : perfStats [] = (0, 0, 0) :=
  (c7_percentages []).2 rfl

/-- C5 counterexample: a single-row input does not fail — it returns an
empty observation sequence — and an input whose first date has no
volatility value available also succeeds instead of failing. -/
theorem c5_counterexample :
    fetchGetSpxData [(0, 100)] [(0, 15.87)] = some [] ∧
    ∃ out, fetchGetSpxData [(0, 100), (1, 100)] [(1, 15.87)] = some out :=
  ⟨rfl, ⟨_, rfl⟩⟩

/-- C5 (amended): the Band Calculator fails (returns None) exactly when
a fetched series is empty; a single-row input succeeds with an empty
observation sequence, and a missing first volatility value yields NaN
cells rather than a failure. -/
theorem c5_failure_iff_empty (spx vix : List (ℕ × ℚ)) :
    (fetchGetSpxData spx vix = none ↔ spx = [] ∨ vix = []) ∧
    (spx.length = 1 → vix ≠ [] → fetchGetSpxData spx vix = some []) := by
  constructor
  · unfold fetchGetSpxData
    by_cases h : spx.isEmpty || vix.isEmpty
    · rw [if_pos h]
      simp only [Bool.or_eq_true, List.isEmpty_iff] at h
      simp [h]
    · rw [if_neg h]
      simp only [Bool.or_eq_true, List.isEmpty_iff] at h
      push_neg at h
      simp [h.1, h.2]
  · intro h1 h2
    cases spx with
    | nil => simp at h1
    | cons p rest =>
      cases rest with
      | cons a b => simp only [List.length_cons] at h1; omega
      | nil =>
        cases vix with
        | nil => exact absurd rfl h2
        | cons q qs => rfl

/-- C5 witness for the amended claim: a one-row SPX history with a
non-empty VIX history returns the empty sequence, not a failure. -/
theorem c5_failure_iff_empty_witness :
    fetchGetSpxData [(0, 200)] [(0, 20)] = some [] :=
  (c5_failure_iff_empty [(0, 200)] [(0, 20)]).2 rfl (by simp)

/-- `getD` of a `zipWith` is the function applied to the two `getD`s. -/
lemma getD_zipWith {α β γ : Type} (f : α → β → γ) (da : α) (db : β) (dc : γ) :
    ∀ (as : List α) (bs : List β) (t : ℕ), t < as.length → t < bs.length →
      (List.zipWith f as bs).getD t dc = f (as.getD t da) (bs.getD t db) := by
  intro as
  induction as with
  | nil => intro bs t h1 _; simp at h1
  | cons a as ih =>
    intro bs t h1 h2
    cases bs with
    | nil => simp at h2
    | cons b bs =>
      cases t with
      | zero => rfl
      | succ t =>
        simp only [List.zipWith_cons_cons, List.getD_cons_succ]
        exact ih bs t (by simpa using h1) (by simpa using h2)

/-- C3: on n ≥ 2 aligned rows the Band Calculator drops row 0 (the
output has n − 1 rows) and output row t is exactly the row built from
input rows t and t+1, so the shifted bounds on row t+1 are the bounds
predicted from row t and appear nowhere else. -/
theorem c3_shift_is_delay (xs : List InRow) (t : ℕ)
    (h2 : 2 ≤ xs.length) (ht : t + 1 < xs.length) :
    ((fetchBandRows xs).drop 1).length = xs.length - 1 ∧
    ((fetchBandRows xs).drop 1).getD t defaultObs =
      fetchObs (some (xs.getD t defaultInRow)) (xs.getD (t + 1) defaultInRow) := by
  cases xs with
  | nil => simp at h2
  | cons x rest =>
    have hd : (fetchBandRows (x :: rest)).drop 1 =
        List.zipWith (fun p c => fetchObs (some p) c) (x :: rest) rest := rfl
    rw [hd]
    constructor
    · rw [List.length_zipWith]
      simp only [List.length_cons]
      omega
    · have ht1 : t < (x :: rest).length := by
        simp only [List.length_cons] at ht ⊢; omega
      have ht2 : t < rest.length := by
        simp only [List.length_cons] at ht; omega
      rw [getD_zipWith _ defaultInRow defaultInRow defaultObs _ _ _ ht1 ht2,
        List.getD_cons_succ]

/-- C8: on any input, fetch_data's pipeline equals app.py's pipeline
followed by removal of the first row, row for row. -/
theorem c8_pipelines_agree (spx vix : List (ℕ × ℚ)) :
    Option.map (fun l => List.drop 1 l) (appGetSpxData spx vix) = fetchGetSpxData spx vix := by
  unfold appGetSpxData fetchGetSpxData
  by_cases h : spx.isEmpty || vix.isEmpty
  · simp [h]
  · simp [h, appBandRows_eq_fetchBandRows]

/-- C1: every row of the Band Calculator's output whose shifted bounds
are real (no NaN) and nested carries exactly one of the three
classifications. -/
theorem c1_classification_partition (spx vix : List (ℕ × ℚ)) (out : List Obs) (o : Obs)
    (h : fetchGetSpxData spx vix = some out) (ho : o ∈ out) (hv : validShifted o) :
    exactlyOne o.within1 o.outside1 o.outside2 := by
  have hout : out = (fetchBandRows (alignRows spx vix)).drop 1 := by
    unfold fetchGetSpxData at h
    split at h
    · exact Option.noConfusion h
    · injection h with h
      exact h.symm
  rw [hout] at ho
  exact exactlyOne_of_flags
    (flagsConsistent_of_mem_fetch (List.mem_of_mem_drop ho)) hv

/-- C10: the latest emitted row, when its shifted bounds are real and
nested, never produces the "N/A" fallback label. -/
theorem c10_na_unreachable (spx vix : List (ℕ × ℚ)) (out : List Obs) (o : Obs)
    (h : fetchGetSpxData spx vix = some out) (hlast : out.getLast? = some o)
    (hv : validShifted o) : latestResultStr o ≠ "N/A" := by
  have hout : out = (fetchBandRows (alignRows spx vix)).drop 1 := by
    unfold fetchGetSpxData at h
    split at h
    · exact Option.noConfusion h
    · injection h with h
      exact h.symm
  have ho : o ∈ out := List.mem_of_mem_getLast? hlast
  rw [hout] at ho
  have hone := exactlyOne_of_flags
    (flagsConsistent_of_mem_fetch (List.mem_of_mem_drop ho)) hv
  rcases hone with ⟨h1, h2, h3⟩ | ⟨h1, h2, h3⟩ | ⟨h1, h2, h3⟩ <;>
    simp [latestResultStr, h1, h2, h3]

/-- C9: over any non-empty window of pipeline rows whose shifted bounds
are all real and nested, the three reported percentages sum to 100. -/
theorem c9_percentages_sum (spx vix : List (ℕ × ℚ)) (full w : List Obs)
    (h : appGetSpxData spx vix = some full)
    (hmem : ∀ o ∈ w, o ∈ full) (hne : w ≠ [])
    (hv : ∀ o ∈ w, validShifted o) :
    (perfStats w).1 + (perfStats w).2.1 + (perfStats w).2.2 = 100 := by
  have hfull : full = appBandRows (alignRows spx vix) := by
    unfold appGetSpxData at h
    split at h
    · exact Option.noConfusion h
    · injection h with h
      exact h.symm
  have hEO : ∀ o ∈ w, exactlyOne o.within1 o.outside1 o.outside2 := by
    intro o how
    have hof : o ∈ fetchBandRows (alignRows spx vix) := by
      rw [← appBandRows_eq_fetchBandRows, ← hfull]
      exact hmem o how
    exact exactlyOne_of_flags (flagsConsistent_of_mem_fetch hof) (hv o how)
  have hcount := filter_three_partition w hEO
  have hpos : 0 < w.length := List.length_pos.mpr hne
  have hne0 : (w.length : ℚ) ≠ 0 := Nat.cast_ne_zero.mpr hpos.ne'
  simp only [perfStats, if_pos hpos]
  have hq : ((w.filter (fun o => o.within1)).length : ℚ) +
      ((w.filter (fun o => o.outside1)).length : ℚ) +
      ((w.filter (fun o => o.outside2)).length : ℚ) = (w.length : ℚ) := by
    exact_mod_cast congrArg (Nat.cast : ℕ → ℚ) hcount
  field_simp
  linarith [hq]

/-- The app pipeline's output on the concrete example (row 0 kept). -/
def exAppOut : List Obs := (appGetSpxData exInputSpx exInputVix).getD []

/-- The example's surviving row has real nested shifted bounds. -/
lemma validShifted_exObs : validShifted exObs := by
  refine ⟨rfl, rfl, rfl, rfl, ?_, ?_⟩
  · show RVal.le (.num (100 * (1 - 2 * ((15.87 : ℚ) / 15.87) / 100)))
        (.num (100 * (1 - (15.87 : ℚ) / 15.87 / 100))) = true
    simp only [RVal.le, decide_eq_true_eq]
    norm_num
  · show RVal.le (.num (100 * (1 + (15.87 : ℚ) / 15.87 / 100)))
        (.num (100 * (1 + 2 * ((15.87 : ℚ) / 15.87) / 100))) = true
    simp only [RVal.le, decide_eq_true_eq]
    norm_num

/-- C1 witness on the two-day example (closes 100 then 99.5, VIX
15.87): the surviving row carries exactly one classification. -/
theorem c1_classification_partition_witness :
    exactlyOne exObs.within1 exObs.outside1 exObs.outside2 :=
  c1_classification_partition exInputSpx exInputVix exFetchOut exObs rfl
    (by rw [show exFetchOut = [exObs] from rfl]
        exact List.mem_singleton_self exObs)
    validShifted_exObs

/-- C3 witness on the two-day example: one output row, equal to the row
built from input rows 0 and 1. -/
theorem c3_shift_is_delay_witness :
    ((fetchBandRows exAligned).drop 1).length = exAligned.length - 1 ∧
    ((fetchBandRows exAligned).drop 1).getD 0 defaultObs =
      fetchObs (some (exAligned.getD 0 defaultInRow)) (exAligned.getD 1 defaultInRow) :=
  c3_shift_is_delay exAligned 0 (by decide) (by decide)

/-- C9 witness: the percentages over the one-row example window sum to
100. -/
theorem c9_percentages_sum_witness :
    (perfStats [exObs]).1 + (perfStats [exObs]).2.1 + (perfStats [exObs]).2.2 = 100 :=
  c9_percentages_sum exInputSpx exInputVix exAppOut [exObs] rfl
    (by intro o ho
        rw [List.mem_singleton] at ho
        subst ho
        rw [show exAppOut = [exAppOut.getD 0 defaultObs, exObs] from rfl]
        exact List.mem_cons_of_mem _ (List.mem_singleton_self _))
    (by simp)
    (by intro o ho
        rw [List.mem_singleton] at ho
        subst ho
        exact validShifted_exObs)

/-- C10 witness: the latest row of the example output gets a real
result label, not "N/A". -/
theorem c10_na_unreachable_witness : latestResultStr exObs ≠ "N/A" :=
  c10_na_unreachable exInputSpx exInputVix exFetchOut exObs rfl rfl validShifted_exObs

end SpxTracker
